import Mathlib

/-!
Shallow embedding of the `FlowSimulation` class in
`src/assets/js/flow-simulation.js` (repository multi-flow).

JavaScript numbers are modelled as rationals (`ℚ`); the calls to
`Math.random()` are modelled by explicit random-draw records passed to each
operation (each draw nominally lies in `[0, 1)`, stated as a hypothesis where
a claim needs it); `Math.sin` / `Math.cos` are modelled by an abstract pair of
functions `ℚ → ℚ` supplied as an environment, since no claim depends on their
values.  The `rgba(...)` colour strings produced by `setPhaseProperties` are
modelled by a record of their numeric components.
-/

set_option autoImplicit false

namespace FlowSim

/-- Colour value standing for the `rgba(r, g, b, alpha)` string the source
builds by template interpolation. -/
structure Color where
  r : Nat
  g : Nat
  b : Nat
  alpha : ℚ
  deriving Repr, DecidableEq

/-- One particle of the pool, mirroring the object literal built in
`createParticles` (lines 55-67) together with the fields `color` and
`buoyancy` that `setPhaseProperties` assigns. -/
structure Particle where
  id : Nat
  x : ℚ
  y : ℚ
  vx : ℚ
  vy : ℚ
  size : ℚ
  phase : String
  density : ℚ
  temperature : ℚ
  life : ℚ
  maxLife : ℚ
  buoyancy : ℚ
  color : Color
  deriving Repr, DecidableEq

/-- The merged `this.options` record (constructor lines 5-13) after
defaulting and spreading. -/
structure Options where
  particleCount : Nat
  flowSpeed : ℚ
  turbulence : ℚ
  phaseTypes : List String
  temperature : ℚ
  pressure : ℚ
  deriving Repr, DecidableEq

/-- The raw `options` argument of the constructor: each key is either absent
(`none`) or present with a numeric (resp. list) value. -/
structure RawOptions where
  particleCount : Option Nat
  flowSpeed : Option ℚ
  turbulence : Option ℚ
  phaseTypes : Option (List String)
  temperature : Option ℚ
  pressure : Option ℚ
  deriving Repr, DecidableEq

/-- JavaScript `x || d` for a possibly-absent numeric value: absent
(`undefined`) and `0` are falsy, every other number is truthy. -/
def jsOrNum (x : Option ℚ) (d : ℚ) : ℚ :=
  match x with
  | none => d
  | some v => if v = 0 then d else v

/-- JavaScript `x || d` for a possibly-absent integer count. -/
def jsOrNat (x : Option Nat) (d : Nat) : Nat :=
  match x with
  | none => d
  | some v => if v = 0 then d else v

/-- JavaScript `x || d` for a possibly-absent array: an array value is always
truthy (even `[]`), so only absence falls back to the default. -/
def jsOrList (x : Option (List String)) (d : List String) : List String :=
  match x with
  | none => d
  | some v => v

/-- The trailing `...options` spread in the constructor's object literal:
a key present in the raw options overwrites the defaulted field computed
just before it. -/
def spreadNum (raw : Option ℚ) (defaulted : ℚ) : ℚ :=
  match raw with
  | some v => v
  | none => defaulted

/-- Spread step for the integer-valued `particleCount` key. -/
def spreadNat (raw : Option Nat) (defaulted : Nat) : Nat :=
  match raw with
  | some v => v
  | none => defaulted

/-- Spread step for the list-valued `phaseTypes` key. -/
def spreadList (raw : Option (List String)) (defaulted : List String) :
    List String :=
  match raw with
  | some v => v
  | none => defaulted

/-- The constructor's options merge (lines 5-13): each field is first
defaulted with `||`, then the whole raw object is spread over the result,
so a present key wins back its raw value. -/
def mergeOptions (o : RawOptions) : Options where
  particleCount := spreadNat o.particleCount (jsOrNat o.particleCount 100)
  flowSpeed := spreadNum o.flowSpeed (jsOrNum o.flowSpeed 1)
  turbulence := spreadNum o.turbulence (jsOrNum o.turbulence 0.1)
  phaseTypes := spreadList o.phaseTypes (jsOrList o.phaseTypes ["gas", "liquid"])
  temperature := spreadNum o.temperature (jsOrNum o.temperature 293.15)
  pressure := spreadNum o.pressure (jsOrNum o.pressure 101325)

/-- `setPhaseProperties` (lines 75-93): switch on the phase string; the
size multiplier is applied to the particle's current (possibly already
scaled) size.  An unknown phase falls through the switch unchanged. -/
def setPhaseProperties (p : Particle) : Particle :=
  if p.phase = "gas" then
    { p with color := ⟨0, 170, 255, p.density * 0.3⟩
             size := p.size * 0.8
             buoyancy := -0.02 }
  else if p.phase = "liquid" then
    { p with color := ⟨0, 100, 200, p.density * 0.7⟩
             size := p.size * 1.2
             buoyancy := 0.01 }
  else if p.phase = "vapor" then
    { p with color := ⟨200, 200, 255, p.density * 0.2⟩
             size := p.size * 0.6
             buoyancy := -0.05 }
  else p

/-- The `Math.random()` draws consumed while creating one particle in
`createParticles` (lines 55-67), in source order. -/
structure CreateRands where
  rx : ℚ
  ry : ℚ
  rvx : ℚ
  rvy : ℚ
  rsize : ℚ
  rphase : ℚ
  rdensity : ℚ
  rtemp : ℚ
  rmaxLife : ℚ
  deriving Repr, DecidableEq

/-- One particle as built by the loop body of `createParticles`
(lines 54-71): the object literal followed by `setPhaseProperties`.
The source leaves `color` and `buoyancy` undefined until
`setPhaseProperties` assigns them; here they start from placeholder
values that the call overwrites for every known phase. -/
def createParticle (o : Options) (width height : ℚ) (i : Nat)
    (r : CreateRands) : Particle :=
  setPhaseProperties
    { id := i
      x := r.rx * width
      y := r.ry * height
      vx := (r.rvx - 0.5) * o.flowSpeed
      vy := (r.rvy - 0.5) * o.flowSpeed
      size := r.rsize * 5 + 2
      phase := o.phaseTypes.getD (Int.toNat ⌊r.rphase * o.phaseTypes.length⌋) "undefined"
      density := r.rdensity * 0.5 + 0.5
      temperature := o.temperature + (r.rtemp - 0.5) * 20
      life := 1
      maxLife := r.rmaxLife * 100 + 50
      buoyancy := 0
      color := ⟨0, 0, 0, 0⟩ }

/-- `createParticles` (lines 51-73): a fresh pool of `particleCount`
particles, the loop index `i` becoming the particle id. -/
def createParticles (o : Options) (width height : ℚ)
    (rs : Nat → CreateRands) : List Particle :=
  (List.range o.particleCount).map fun i => createParticle o width height i (rs i)

/-- Abstract stand-ins for `Math.sin` and `Math.cos` in the flow-field
formula; no claim depends on their values. -/
structure MathFns where
  sin : ℚ → ℚ
  cos : ℚ → ℚ

/-- The `Math.random()` draws consumed while updating one particle during
one tick: two in `applyFlowForces`, one in `checkPhaseChange`, and three in
`resetParticle` (used only when the particle's life expires). -/
structure TickRands where
  turbX : ℚ
  turbY : ℚ
  drift : ℚ
  resetX : ℚ
  resetY : ℚ
  resetTemp : ℚ
  deriving Repr, DecidableEq

/-- `applyFlowForces` (lines 118-136): turbulence, buoyancy, the sinusoidal
flow field, then multiplicative damping of both velocity components. -/
def applyFlowForces (o : Options) (env : MathFns) (time : Nat)
    (r : TickRands) (p : Particle) : Particle :=
  let turbulenceX := (r.turbX - 0.5) * o.turbulence
  let turbulenceY := (r.turbY - 0.5) * o.turbulence
  let flowX := env.sin ((time : ℚ) * 0.01 + p.y * 0.01) * 0.1
  let flowY := env.cos ((time : ℚ) * 0.01 + p.x * 0.01) * 0.1
  { p with vx := (p.vx + turbulenceX + flowX) * 0.98
           vy := (p.vy + p.buoyancy + turbulenceY + flowY) * 0.98 }

/-- `checkPhaseChange` (lines 138-152): liquid/vapor transitions at the
fixed critical temperature 373.15 K, then the random temperature drift
applied to every particle. -/
def checkPhaseChange (r : TickRands) (p : Particle) : Particle :=
  let criticalTemp : ℚ := 373.15
  let p1 :=
    if p.phase = "liquid" ∧ p.temperature > criticalTemp then
      setPhaseProperties { p with phase := "vapor" }
    else if p.phase = "vapor" ∧ p.temperature < criticalTemp then
      setPhaseProperties { p with phase := "liquid" }
    else p
  { p1 with temperature := p1.temperature + (r.drift - 0.5) * 0.5 }

/-- `applyBoundaries` (lines 154-166): each axis independently teleports a
particle that left the canvas to the opposite edge. -/
def applyBoundaries (width height : ℚ) (p : Particle) : Particle :=
  let x1 := if p.x < 0 then width else if p.x > width then 0 else p.x
  let y1 := if p.y < 0 then height else if p.y > height then 0 else p.y
  { p with x := x1, y := y1 }

/-- `resetParticle` (lines 168-173): respawn in place with a fresh random
position and temperature and full life; every other field is kept. -/
def resetParticle (o : Options) (width height : ℚ) (r : TickRands)
    (p : Particle) : Particle :=
  { p with x := r.resetX * width
           y := r.resetY * height
           life := 1
           temperature := o.temperature + (r.resetTemp - 0.5) * 20 }

/-- The per-particle body of `updateParticles` (lines 96-115): flow forces,
phase change, position integration, boundary handling, life decrement and
conditional respawn. -/
def updateParticle (o : Options) (env : MathFns) (width height : ℚ)
    (time : Nat) (r : TickRands) (p : Particle) : Particle :=
  let p1 := applyFlowForces o env time r p
  let p2 := checkPhaseChange r p1
  let p3 := { p2 with x := p2.x + p2.vx, y := p2.y + p2.vy }
  let p4 := applyBoundaries width height p3
  let p5 := { p4 with life := p4.life - 1 / p4.maxLife }
  if p5.life ≤ 0 then resetParticle o width height r p5 else p5

/-- `updateParticles` (lines 95-116): the per-particle update applied to the
whole pool, the draws of the particle at index `i` supplied by `rs i`. -/
def updateParticles (o : Options) (env : MathFns) (width height : ℚ)
    (time : Nat) (rs : Nat → TickRands) (ps : List Particle) : List Particle :=
  ps.mapIdx fun i p => updateParticle o env width height time (rs i) p

/-- Iterated ticks of a single particle: `iterTicks o env w h rs n t p` runs
`n` ticks starting at time counter `t`, the tick at time `u` drawing its
randoms from `rs u`.  (Within `animate` the counter is incremented before
`updateParticles` runs, so successive ticks see successive times.) -/
def iterTicks (o : Options) (env : MathFns) (width height : ℚ)
    (rs : Nat → TickRands) : Nat → Nat → Particle → Particle
  | 0, _, p => p
  | n + 1, t, p =>
      iterTicks o env width height rs n (t + 1)
        (updateParticle o env width height t (rs t) p)

/-- The host container handle (only its dimensions matter to the source). -/
structure Container where
  offsetWidth : ℚ
  offsetHeight : ℚ
  deriving Repr, DecidableEq

/-- The drawing surface allocated by `setupCanvas`. -/
structure Canvas where
  width : ℚ
  height : ℚ
  deriving Repr, DecidableEq

/-- Errors that can escape the constructor: a runtime `TypeError` raised by
reading a property of `null`/`undefined`, or an explicitly `throw`n error
with a message (the source contains no `throw` statement). -/
inductive JsError where
  | typeError : JsError
  | thrown : String → JsError
  deriving Repr, DecidableEq

/-- `setupCanvas` (lines 29-49): reading `this.container.offsetWidth` on
line 32 raises a `TypeError` when the container is absent; otherwise the
canvas takes the container's current dimensions.  (The style string, the
DOM insertion and the resize listener do not affect simulation state.) -/
def setupCanvas (container : Option Container) : Except JsError Canvas :=
  match container with
  | none => Except.error JsError.typeError
  | some c => Except.ok ⟨c.offsetWidth, c.offsetHeight⟩

/-- Simulation state: the fields assigned in the constructor (lines 3-21),
plus `scheduled`, the number of `requestAnimationFrame` callbacks currently
pending with the host scheduler (the model of the animation schedule). -/
structure Sim where
  options : Options
  canvas : Canvas
  particles : List Particle
  isRunning : Bool
  animationId : Option Nat
  time : Nat
  scheduled : Nat
  deriving Repr, DecidableEq

/-- The constructor (lines 3-21) together with `init` (lines 23-27): merge
the options, set up the canvas, populate the pool.  `setupControls`
(lines 257-315) only builds DOM controls and registers listeners; it does
not touch simulation state.  When the container is absent the `TypeError`
from `setupCanvas` propagates out of the constructor. -/
def construct (container : Option Container) (o : RawOptions)
    (rs : Nat → CreateRands) : Except JsError Sim :=
  let opts := mergeOptions o
  match setupCanvas container with
  | Except.error e => Except.error e
  | Except.ok canvas =>
      Except.ok
        { options := opts
          canvas := canvas
          particles := createParticles opts canvas.width canvas.height rs
          isRunning := false
          animationId := none
          time := 0
          scheduled := 0 }

/-- `animate` (lines 233-241): bail out when not running; otherwise advance
the time counter, update the pool, render (a pure drawing effect, no
simulation state), and schedule exactly one further frame callback. -/
def animate (env : MathFns) (rs : Nat → TickRands) (s : Sim) : Sim :=
  if s.isRunning = false then s
  else
    let t := s.time + 1
    { s with time := t
             particles :=
               updateParticles s.options env s.canvas.width s.canvas.height t
                 rs s.particles
             scheduled := s.scheduled + 1
             animationId := some t }

/-- `start` (lines 243-248): only from the stopped state flip `isRunning`
and run `animate`, which schedules the recurring frame callback. -/
def start (env : MathFns) (rs : Nat → TickRands) (s : Sim) : Sim :=
  if s.isRunning = false then animate env rs { s with isRunning := true }
  else s

/-- `getParticleCount` (lines 330-332). -/
def getParticleCount (s : Sim) : Nat := s.particles.length

/-- Reading `distribution[phase]` from the model of a plain JS object as an
association list with distinct keys (first match wins). -/
def lookupCount : List (String × Nat) → String → Option Nat
  | [], _ => none
  | kv :: rest, ph => if kv.1 = ph then some kv.2 else lookupCount rest ph

/-- Writing `distribution[phase] = v`: replace the value at an existing key,
or append a new key-value pair. -/
def setCount : List (String × Nat) → String → Nat → List (String × Nat)
  | [], ph, v => [(ph, v)]
  | kv :: rest, ph, v =>
      if kv.1 = ph then (ph, v) :: rest else kv :: setCount rest ph v

/-- `getPhaseDistribution` (lines 334-340): scan the pool, incrementing
`distribution[particle.phase] = (distribution[particle.phase] || 0) + 1`. -/
def getPhaseDistribution (s : Sim) : List (String × Nat) :=
  s.particles.foldl
    (fun d p => setCount d p.phase (((lookupCount d p.phase).getD 0) + 1)) []

/-- Sum of the counts stored in a phase-distribution mapping. -/
def sumCounts (d : List (String × Nat)) : Nat := (d.map Prod.snd).sum

/-- Concrete default options record (all constructor defaults). -/
def defaultOptions : Options :=
  ⟨100, 1, 0.1, ["gas", "liquid"], 293.15, 101325⟩

/-- Concrete raw options with every key absent. -/
def rawNone : RawOptions := ⟨none, none, none, none, none, none⟩

/-- Concrete raw options that explicitly set `flowSpeed` and `turbulence`
to `0` and leave every other key absent. -/
def rawZero : RawOptions := ⟨none, some 0, some 0, none, none, none⟩

/-- Concrete math environment with both trigonometric stand-ins constantly
zero (their values are irrelevant to every claim). -/
def zeroMath : MathFns := ⟨fun _ => 0, fun _ => 0⟩

/-- Concrete per-tick random draws, all zero. -/
def zeroTick : TickRands := ⟨0, 0, 0, 0, 0, 0⟩

/-- Concrete per-creation random draws, all zero. -/
def zeroCreate : CreateRands := ⟨0, 0, 0, 0, 0, 0, 0, 0, 0⟩

/-- Concrete particle sitting just left of the canvas, used to probe the
boundary handling. -/
def boundaryProbe : Particle :=
  ⟨0, -1, 1, 0, 0, 3, "gas", 0.6, 300, 1, 100, -0.02, ⟨0, 170, 255, 0.18⟩⟩

/-- Concrete liquid particle barely above the critical temperature. -/
def warmLiquid : Particle :=
  ⟨0, 1, 1, 0, 0, 10, "liquid", 0.6, 373.2, 1, 100, 0.01, ⟨0, 100, 200, 0.42⟩⟩

/-- Concrete liquid particle at 400 K. -/
def hotLiquid : Particle :=
  ⟨1, 1, 1, 0, 0, 10, "liquid", 0.6, 400, 1, 100, 0.01, ⟨0, 100, 200, 0.42⟩⟩

/-- Concrete vapor particle at 300 K. -/
def coolVapor : Particle :=
  ⟨2, 1, 1, 0, 0, 10, "vapor", 0.6, 300, 1, 100, -0.05, ⟨200, 200, 255, 0.12⟩⟩

/-- Concrete gas particle at an extreme temperature. -/
def hotGas : Particle :=
  ⟨3, 1, 1, 0, 0, 10, "gas", 0.6, 5000, 1, 100, -0.02, ⟨0, 170, 255, 0.18⟩⟩

/-- Concrete particle whose life expires on the next tick. -/
def dyingParticle : Particle :=
  ⟨4, 1, 1, 0, 0, 10, "gas", 0.6, 300, 0.4, 2, -0.02, ⟨0, 170, 255, 0.18⟩⟩

/-- Concrete stopped simulation with an empty pool. -/
def stoppedSim : Sim :=
  ⟨defaultOptions, ⟨2, 2⟩, [], false, none, 0, 0⟩

/-- Concrete creation-draw stream, all draws zero. -/
def zeroCreateDraws : Nat → CreateRands := fun _ => zeroCreate

/-- Concrete tick-draw stream, all draws zero. -/
def zeroTickDraws : Nat → TickRands := fun _ => zeroTick

/-- Refinement predicate following the spec's words, for comparison with
the source behaviour: a construction outcome counts as failing fast with a
descriptive construction error when it is an error that was explicitly
thrown with a message, rather than a bare runtime `TypeError` escaping from
a property access. -/
def isDescriptiveCtorFailure : Except JsError Sim → Bool
  | Except.error (JsError.thrown _) => true
  | _ => false

/-! Preservation lemmas: which fields each source operation leaves alone. -/

theorem setPhaseProperties_phase (p : Particle) :
    (setPhaseProperties p).phase = p.phase := by
  unfold setPhaseProperties; split_ifs <;> rfl

theorem setPhaseProperties_life (p : Particle) :
    (setPhaseProperties p).life = p.life := by
  unfold setPhaseProperties; split_ifs <;> rfl

theorem setPhaseProperties_maxLife (p : Particle) :
    (setPhaseProperties p).maxLife = p.maxLife := by
  unfold setPhaseProperties; split_ifs <;> rfl

theorem setPhaseProperties_temperature (p : Particle) :
    (setPhaseProperties p).temperature = p.temperature := by
  unfold setPhaseProperties; split_ifs <;> rfl

theorem applyFlowForces_phase (o : Options) (env : MathFns) (t : Nat)
    (r : TickRands) (p : Particle) :
    (applyFlowForces o env t r p).phase = p.phase := rfl

theorem applyFlowForces_temperature (o : Options) (env : MathFns) (t : Nat)
    (r : TickRands) (p : Particle) :
    (applyFlowForces o env t r p).temperature = p.temperature := rfl

theorem applyFlowForces_life (o : Options) (env : MathFns) (t : Nat)
    (r : TickRands) (p : Particle) :
    (applyFlowForces o env t r p).life = p.life := rfl

theorem applyFlowForces_maxLife (o : Options) (env : MathFns) (t : Nat)
    (r : TickRands) (p : Particle) :
    (applyFlowForces o env t r p).maxLife = p.maxLife := rfl

theorem applyBoundaries_phase (w h : ℚ) (p : Particle) :
    (applyBoundaries w h p).phase = p.phase := rfl

theorem applyBoundaries_life (w h : ℚ) (p : Particle) :
    (applyBoundaries w h p).life = p.life := rfl

theorem applyBoundaries_maxLife (w h : ℚ) (p : Particle) :
    (applyBoundaries w h p).maxLife = p.maxLife := rfl

theorem resetParticle_phase (o : Options) (w h : ℚ) (r : TickRands)
    (p : Particle) : (resetParticle o w h r p).phase = p.phase := rfl

theorem resetParticle_life (o : Options) (w h : ℚ) (r : TickRands)
    (p : Particle) : (resetParticle o w h r p).life = 1 := rfl

theorem checkPhaseChange_life (r : TickRands) (p : Particle) :
    (checkPhaseChange r p).life = p.life := by
  unfold checkPhaseChange
  dsimp only
  split_ifs <;> simp [setPhaseProperties_life]

theorem checkPhaseChange_maxLife (r : TickRands) (p : Particle) :
    (checkPhaseChange r p).maxLife = p.maxLife := by
  unfold checkPhaseChange
  dsimp only
  split_ifs <;> simp [setPhaseProperties_maxLife]

/-- The phase after `checkPhaseChange`, as a case analysis on the two
transition guards of the source. -/
theorem checkPhaseChange_phase (r : TickRands) (p : Particle) :
    (checkPhaseChange r p).phase =
      if p.phase = "liquid" ∧ p.temperature > 373.15 then "vapor"
      else if p.phase = "vapor" ∧ p.temperature < 373.15 then "liquid"
      else p.phase := by
  unfold checkPhaseChange
  dsimp only
  split_ifs <;> simp [setPhaseProperties_phase]

/-- The temperature drift of `checkPhaseChange` applies to every particle,
transitioning or not. -/
theorem checkPhaseChange_temperature (r : TickRands) (p : Particle) :
    (checkPhaseChange r p).temperature =
      p.temperature + (r.drift - 0.5) * 0.5 := by
  unfold checkPhaseChange
  dsimp only
  split_ifs <;> simp [setPhaseProperties_temperature]

/-- The size after `checkPhaseChange`: a transition multiplies the current
size by the new phase's multiplier; otherwise the size is kept. -/
theorem checkPhaseChange_size (r : TickRands) (p : Particle) :
    (checkPhaseChange r p).size =
      if p.phase = "liquid" ∧ p.temperature > 373.15 then p.size * 0.6
      else if p.phase = "vapor" ∧ p.temperature < 373.15 then p.size * 1.2
      else p.size := by
  unfold checkPhaseChange
  dsimp only
  split_ifs <;> simp [setPhaseProperties]

/-- Unfolding of the per-particle tick with the life-expiry condition
expressed in the input particle's fields (nothing before the life
decrement changes `life` or `maxLife`). -/
theorem updateParticle_eq (o : Options) (env : MathFns) (w h : ℚ) (t : Nat)
    (r : TickRands) (p : Particle) :
    updateParticle o env w h t r p =
      (let p2 := checkPhaseChange r (applyFlowForces o env t r p)
       let p4 := applyBoundaries w h { p2 with x := p2.x + p2.vx, y := p2.y + p2.vy }
       let p5 := { p4 with life := p4.life - 1 / p4.maxLife }
       if p.life - 1 / p.maxLife ≤ 0 then resetParticle o w h r p5 else p5) := by
  unfold updateParticle
  dsimp only
  simp only [applyBoundaries_life, applyBoundaries_maxLife,
    checkPhaseChange_life, checkPhaseChange_maxLife, applyFlowForces_life,
    applyFlowForces_maxLife]

/-- Life after one tick: decremented by exactly `1 / maxLife`, except that
expiry resets it to `1`. -/
theorem updateParticle_life (o : Options) (env : MathFns) (w h : ℚ) (t : Nat)
    (r : TickRands) (p : Particle) :
    (updateParticle o env w h t r p).life =
      if p.life - 1 / p.maxLife ≤ 0 then 1 else p.life - 1 / p.maxLife := by
  rw [updateParticle_eq]
  dsimp only
  split_ifs with hc
  · exact resetParticle_life o w h r _
  · simp only [applyBoundaries_life, applyBoundaries_maxLife,
      checkPhaseChange_life, checkPhaseChange_maxLife, applyFlowForces_life,
      applyFlowForces_maxLife]

/-- On the tick where life expires, the respawned particle carries the
fresh random position and temperature written by `resetParticle`. -/
theorem updateParticle_reset_fields (o : Options) (env : MathFns) (w h : ℚ)
    (t : Nat) (r : TickRands) (p : Particle)
    (hc : p.life - 1 / p.maxLife ≤ 0) :
    (updateParticle o env w h t r p).x = r.resetX * w ∧
    (updateParticle o env w h t r p).y = r.resetY * h ∧
    (updateParticle o env w h t r p).temperature =
      o.temperature + (r.resetTemp - 0.5) * 20 := by
  rw [updateParticle_eq]
  dsimp only
  rw [if_pos hc]
  exact ⟨rfl, rfl, rfl⟩

/-- After one tick the phase is exactly the phase `checkPhaseChange`
computed; no later step of the tick touches it. -/
theorem updateParticle_phase (o : Options) (env : MathFns) (w h : ℚ)
    (t : Nat) (r : TickRands) (p : Particle) :
    (updateParticle o env w h t r p).phase =
      (checkPhaseChange r (applyFlowForces o env t r p)).phase := by
  rw [updateParticle_eq]
  dsimp only
  split_ifs
  · simp only [resetParticle_phase, applyBoundaries_phase]
  · simp only [applyBoundaries_phase]

/-- A gas particle is still gas after one tick. -/
theorem updateParticle_gas (o : Options) (env : MathFns) (w h : ℚ) (t : Nat)
    (r : TickRands) (p : Particle) (hp : p.phase = "gas") :
    (updateParticle o env w h t r p).phase = "gas" := by
  rw [updateParticle_phase, checkPhaseChange_phase]
  simp [applyFlowForces_phase, hp]

/-- A gas particle is still gas after any number of ticks. -/
theorem iterTicks_gas (o : Options) (env : MathFns) (w h : ℚ)
    (rs : Nat → TickRands) (n t0 : Nat) (p : Particle)
    (hp : p.phase = "gas") :
    (iterTicks o env w h rs n t0 p).phase = "gas" := by
  induction n generalizing t0 p with
  | zero => exact hp
  | succ n ih =>
      rw [iterTicks]
      exact ih (t0 + 1) _ (updateParticle_gas o env w h t0 (rs t0) p hp)

/-- C1 counterexample: on a positive 2×2 canvas, the particle at x = -1 is
teleported by `applyBoundaries` to x = width = 2, which violates the claimed
half-open bound x ∈ [0, width). -/
theorem applyBoundaries_halfOpen_counterexample :
    (0 : ℚ) < 2 ∧ (applyBoundaries 2 2 boundaryProbe).x = 2 ∧
    ¬ (applyBoundaries 2 2 boundaryProbe).x < 2 := by
  refine ⟨by norm_num, ?_, ?_⟩ <;> norm_num [applyBoundaries, boundaryProbe]

/-- C1 (amended): immediately after `applyBoundaries`, for nonnegative
canvas dimensions, the position lies in the closed box
[0, width] × [0, height]; the endpoints width and height are attained (a
negative coordinate is sent to the far edge itself), so the half-open box
of the original claim does not hold. -/
theorem applyBoundaries_position_in_closed_box (w h : ℚ) (p : Particle)
    (hw : 0 ≤ w) (hh : 0 ≤ h) :
    0 ≤ (applyBoundaries w h p).x ∧ (applyBoundaries w h p).x ≤ w ∧
    0 ≤ (applyBoundaries w h p).y ∧ (applyBoundaries w h p).y ≤ h := by
  unfold applyBoundaries
  dsimp only
  refine ⟨?_, ?_, ?_, ?_⟩ <;> split_ifs <;> first | assumption | linarith

/-- Witness for the amended C1 at the concrete probe particle. -/
theorem applyBoundaries_position_in_closed_box_witness :
    0 ≤ (applyBoundaries 2 2 boundaryProbe).x ∧
    (applyBoundaries 2 2 boundaryProbe).x ≤ 2 ∧
    0 ≤ (applyBoundaries 2 2 boundaryProbe).y ∧
    (applyBoundaries 2 2 boundaryProbe).y ≤ 2 :=
  applyBoundaries_position_in_closed_box 2 2 boundaryProbe (by norm_num)
    (by norm_num)

/-- C2: on a tick, a liquid particle hotter than 373.15 becomes vapor, a
vapor particle cooler than 373.15 becomes liquid, and a gas particle keeps
its phase over any number of ticks, whatever the temperatures and draws. -/
theorem updateParticle_phase_transition_rules (o : Options) (env : MathFns)
    (w h : ℚ) (t : Nat) (r : TickRands) (rs : Nat → TickRands) (n t0 : Nat)
    (p : Particle) :
    (p.phase = "liquid" → p.temperature > 373.15 →
      (updateParticle o env w h t r p).phase = "vapor") ∧
    (p.phase = "vapor" → p.temperature < 373.15 →
      (updateParticle o env w h t r p).phase = "liquid") ∧
    (p.phase = "gas" → (iterTicks o env w h rs n t0 p).phase = "gas") := by
  refine ⟨?_, ?_, fun hp => iterTicks_gas o env w h rs n t0 p hp⟩
  · intro hp ht
    rw [updateParticle_phase, checkPhaseChange_phase]
    simp [applyFlowForces_phase, applyFlowForces_temperature, hp, ht]
  · intro hp ht
    rw [updateParticle_phase, checkPhaseChange_phase]
    simp [applyFlowForces_phase, applyFlowForces_temperature, hp, ht]

/-- Witness for C2 at a 400 K liquid particle, a 300 K vapor particle and a
gas particle run for three ticks. -/
theorem updateParticle_phase_transition_rules_witness :
    (updateParticle defaultOptions zeroMath 2 2 0 zeroTick hotLiquid).phase = "vapor" ∧
    (updateParticle defaultOptions zeroMath 2 2 0 zeroTick coolVapor).phase = "liquid" ∧
    (iterTicks defaultOptions zeroMath 2 2 (fun _ => zeroTick) 3 0 hotGas).phase = "gas" :=
  ⟨(updateParticle_phase_transition_rules defaultOptions zeroMath 2 2 0
      zeroTick (fun _ => zeroTick) 3 0 hotLiquid).1 rfl (by norm_num [hotLiquid]),
   (updateParticle_phase_transition_rules defaultOptions zeroMath 2 2 0
      zeroTick (fun _ => zeroTick) 3 0 coolVapor).2.1 rfl (by norm_num [coolVapor]),
   (updateParticle_phase_transition_rules defaultOptions zeroMath 2 2 0
      zeroTick (fun _ => zeroTick) 3 0 hotGas).2.2 rfl⟩

/-- C4: a triggered transition multiplies the current, already-scaled size
by the new phase's multiplier, so a liquid → vapor → liquid round trip ends
with the original size × 0.6 × 1.2. -/
theorem phase_transition_size_compounds (r1 r2 : TickRands) (p : Particle)
    (hph : p.phase = "liquid") (hhot : p.temperature > 373.15)
    (hcool : (checkPhaseChange r1 p).temperature < 373.15) :
    (checkPhaseChange r1 p).phase = "vapor" ∧
    (checkPhaseChange r1 p).size = p.size * 0.6 ∧
    (checkPhaseChange r2 (checkPhaseChange r1 p)).phase = "liquid" ∧
    (checkPhaseChange r2 (checkPhaseChange r1 p)).size = p.size * 0.6 * 1.2 := by
  have h1p : (checkPhaseChange r1 p).phase = "vapor" := by
    rw [checkPhaseChange_phase]; simp [hph, hhot]
  have h1s : (checkPhaseChange r1 p).size = p.size * 0.6 := by
    rw [checkPhaseChange_size]; simp [hph, hhot]
  have h2p : (checkPhaseChange r2 (checkPhaseChange r1 p)).phase = "liquid" := by
    rw [checkPhaseChange_phase]; simp [h1p, hcool]
  have h2s : (checkPhaseChange r2 (checkPhaseChange r1 p)).size = p.size * 0.6 * 1.2 := by
    rw [checkPhaseChange_size]; simp [h1p, h1s, hcool]
  exact ⟨h1p, h1s, h2p, h2s⟩

/-- Witness for C4: a liquid particle at 373.2 K boils, then the zero draw
drifts it to 372.95 K and it condenses back; size ends at 0.72× its
original value. -/
theorem phase_transition_size_compounds_witness :
    (checkPhaseChange zeroTick warmLiquid).phase = "vapor" ∧
    (checkPhaseChange zeroTick warmLiquid).size = warmLiquid.size * 0.6 ∧
    (checkPhaseChange zeroTick (checkPhaseChange zeroTick warmLiquid)).phase = "liquid" ∧
    (checkPhaseChange zeroTick (checkPhaseChange zeroTick warmLiquid)).size =
      warmLiquid.size * 0.6 * 1.2 :=
  phase_transition_size_compounds zeroTick zeroTick warmLiquid rfl
    (by norm_num [warmLiquid])
    (by rw [checkPhaseChange_temperature]; norm_num [warmLiquid, zeroTick])

/-- C10: `resetParticle` rewrites exactly x, y, life and temperature;
velocity, size, phase, density, buoyancy, colour and maxLife all pass
through unchanged. -/
theorem resetParticle_frame_condition (o : Options) (w h : ℚ)
    (r : TickRands) (p : Particle) :
    (resetParticle o w h r p).vx = p.vx ∧
    (resetParticle o w h r p).vy = p.vy ∧
    (resetParticle o w h r p).size = p.size ∧
    (resetParticle o w h r p).phase = p.phase ∧
    (resetParticle o w h r p).density = p.density ∧
    (resetParticle o w h r p).buoyancy = p.buoyancy ∧
    (resetParticle o w h r p).color = p.color ∧
    (resetParticle o w h r p).maxLife = p.maxLife ∧
    (resetParticle o w h r p).x = r.resetX * w ∧
    (resetParticle o w h r p).y = r.resetY * h ∧
    (resetParticle o w h r p).life = 1 ∧
    (resetParticle o w h r p).temperature =
      o.temperature + (r.resetTemp - 0.5) * 20 :=
  ⟨rfl, rfl, rfl, rfl, rfl, rfl, rfl, rfl, rfl, rfl, rfl, rfl⟩

/-- C3: life is exactly 1 after creation and after a reset; a tick
decrements life by exactly `1 / maxLife`, and once that would reach ≤ 0 the
particle is instead respawned with a fresh random position, life 1, and a
temperature within ±10 of the configured mean. -/
theorem particle_life_cycle (o : Options) (w h : ℚ) (i : Nat)
    (cr : CreateRands) (env : MathFns) (t : Nat) (r : TickRands)
    (p : Particle) (_hml : 0 < p.maxLife) (h0 : 0 ≤ r.resetTemp)
    (h1 : r.resetTemp < 1) :
    (createParticle o w h i cr).life = 1 ∧
    (resetParticle o w h r p).life = 1 ∧
    ((updateParticle o env w h t r p).life =
      if p.life - 1 / p.maxLife ≤ 0 then 1 else p.life - 1 / p.maxLife) ∧
    (p.life - 1 / p.maxLife ≤ 0 →
      (updateParticle o env w h t r p).x = r.resetX * w ∧
      (updateParticle o env w h t r p).y = r.resetY * h ∧
      (updateParticle o env w h t r p).life = 1 ∧
      |(updateParticle o env w h t r p).temperature - o.temperature| ≤ 10) := by
  refine ⟨by simp [createParticle, setPhaseProperties_life],
    resetParticle_life o w h r p, updateParticle_life o env w h t r p, ?_⟩
  intro hc
  obtain ⟨hx, hy, htemp⟩ := updateParticle_reset_fields o env w h t r p hc
  refine ⟨hx, hy, by rw [updateParticle_life, if_pos hc], ?_⟩
  rw [htemp]
  have harith : o.temperature + (r.resetTemp - 0.5) * 20 - o.temperature =
      (r.resetTemp - 0.5) * 20 := by ring
  rw [harith, abs_le]
  constructor <;> nlinarith

/-- Witness for C3 at a particle with maxLife 2 and life 0.4, whose next
tick expires it and triggers the respawn. -/
theorem particle_life_cycle_witness :
    (createParticle defaultOptions 2 2 0 zeroCreate).life = 1 ∧
    (resetParticle defaultOptions 2 2 zeroTick dyingParticle).life = 1 ∧
    ((updateParticle defaultOptions zeroMath 2 2 0 zeroTick dyingParticle).life =
      if dyingParticle.life - 1 / dyingParticle.maxLife ≤ 0 then 1
      else dyingParticle.life - 1 / dyingParticle.maxLife) ∧
    ((updateParticle defaultOptions zeroMath 2 2 0 zeroTick dyingParticle).x =
       zeroTick.resetX * 2 ∧
     (updateParticle defaultOptions zeroMath 2 2 0 zeroTick dyingParticle).y =
       zeroTick.resetY * 2 ∧
     (updateParticle defaultOptions zeroMath 2 2 0 zeroTick dyingParticle).life = 1 ∧
     |(updateParticle defaultOptions zeroMath 2 2 0 zeroTick dyingParticle).temperature -
        defaultOptions.temperature| ≤ 10) :=
  have h := particle_life_cycle defaultOptions 2 2 0 zeroCreate zeroMath 0
    zeroTick dyingParticle (by norm_num [dyingParticle])
    (by norm_num [zeroTick]) (by norm_num [zeroTick])
  ⟨h.1, h.2.1, h.2.2.1, h.2.2.2 (by norm_num [dyingParticle])⟩

/-- Starting from a stopped simulation yields the running state with the
tick applied once and one frame callback scheduled. -/
theorem start_of_stopped (env : MathFns) (rs : Nat → TickRands) (s : Sim)
    (hrun : s.isRunning = false) :
    start env rs s =
      { s with isRunning := true
               time := s.time + 1
               particles := updateParticles s.options env s.canvas.width
                 s.canvas.height (s.time + 1) rs s.particles
               scheduled := s.scheduled + 1
               animationId := some (s.time + 1) } := by
  unfold start animate
  rw [hrun]
  simp

/-- Starting an already-running simulation changes nothing. -/
theorem start_of_running (env : MathFns) (rs : Nat → TickRands) (s : Sim)
    (hrun : s.isRunning = true) : start env rs s = s := by
  unfold start
  rw [hrun]
  simp

/-- C5: `start` is idempotent — a second `start` on the already-running
state is a no-op — and from the stopped state (no pending frame callback)
it moves to running with exactly one scheduled tick callback, the count a
second `start` does not increase. -/
theorem start_idempotent_single_schedule (env : MathFns)
    (rs : Nat → TickRands) (s : Sim) (hrun : s.isRunning = false)
    (hsched : s.scheduled = 0) :
    start env rs (start env rs s) = start env rs s ∧
    (start env rs s).isRunning = true ∧
    (start env rs s).scheduled = 1 ∧
    (start env rs (start env rs s)).scheduled = 1 := by
  have h0 := start_of_stopped env rs s hrun
  have hrun2 : (start env rs s).isRunning = true := by rw [h0]
  have hidem : start env rs (start env rs s) = start env rs s :=
    start_of_running env rs (start env rs s) hrun2
  have hs1 : (start env rs s).scheduled = 1 := by rw [h0]; simp [hsched]
  exact ⟨hidem, hrun2, hs1, by rw [hidem]; exact hs1⟩

/-- Witness for C5 at the concrete stopped simulation. -/
theorem start_idempotent_single_schedule_witness :
    start zeroMath zeroTickDraws (start zeroMath zeroTickDraws stoppedSim) =
      start zeroMath zeroTickDraws stoppedSim ∧
    (start zeroMath zeroTickDraws stoppedSim).isRunning = true ∧
    (start zeroMath zeroTickDraws stoppedSim).scheduled = 1 ∧
    (start zeroMath zeroTickDraws
        (start zeroMath zeroTickDraws stoppedSim)).scheduled = 1 :=
  start_idempotent_single_schedule zeroMath zeroTickDraws stoppedSim rfl rfl

/-- Incrementing one phase's entry raises the total count by one. -/
theorem sumCounts_bump (d : List (String × Nat)) (ph : String) :
    sumCounts (setCount d ph ((lookupCount d ph).getD 0 + 1)) =
      sumCounts d + 1 := by
  induction d with
  | nil => simp [sumCounts, setCount, lookupCount]
  | cons kv rest ih =>
      by_cases hk : kv.1 = ph
      · simp only [lookupCount, setCount, if_pos hk, Option.getD_some,
          sumCounts, List.map_cons, List.sum_cons]
        omega
      · simp only [lookupCount, setCount, if_neg hk, sumCounts,
          List.map_cons, List.sum_cons] at ih ⊢
        omega

/-- Folding the counting step over a pool adds the pool's length to the
total of the accumulator. -/
theorem sumCounts_fold (ps : List Particle) (d : List (String × Nat)) :
    sumCounts (ps.foldl
      (fun d p => setCount d p.phase ((lookupCount d p.phase).getD 0 + 1)) d) =
      sumCounts d + ps.length := by
  induction ps generalizing d with
  | nil => simp
  | cons p rest ih =>
      simp only [List.foldl_cons, List.length_cons]
      rw [ih, sumCounts_bump]
      omega

/-- C6: in every simulation state, the counts of `getPhaseDistribution`
sum to `getParticleCount`. -/
theorem phaseDistribution_sums_to_count (s : Sim) :
    sumCounts (getPhaseDistribution s) = getParticleCount s := by
  unfold getPhaseDistribution getParticleCount
  rw [sumCounts_fold]
  simp [sumCounts]

/-- C7 counterexample: with the container absent, construction does fail,
but with the bare `TypeError` of the null property access on line 32, not
with an explicitly thrown descriptive construction error. -/
theorem construct_absent_container_counterexample :
    construct none rawNone zeroCreateDraws = Except.error JsError.typeError ∧
    isDescriptiveCtorFailure (construct none rawNone zeroCreateDraws) = false :=
  ⟨rfl, rfl⟩

/-- C7 (amended): construction with an absent host container always fails
during the constructor call itself (fast, never later), but the failure is
the generic `TypeError` raised by reading `offsetWidth` of the missing
container inside `setupCanvas`, not a descriptive construction error. -/
theorem construct_absent_container_fails_with_typeError (o : RawOptions)
    (rs : Nat → CreateRands) :
    construct none o rs = Except.error JsError.typeError := rfl

/-- Witness for the amended C7 at concrete arguments. -/
theorem construct_absent_container_fails_witness :
    construct none rawNone zeroCreateDraws = Except.error JsError.typeError :=
  construct_absent_container_fails_with_typeError rawNone zeroCreateDraws

/-- `setPhaseProperties` commutes with overwriting the velocity fields it
never touches. -/
theorem setPhaseProperties_vxvy (p : Particle) (a b : ℚ) :
    setPhaseProperties { p with vx := a, vy := b } =
      { setPhaseProperties p with vx := a, vy := b } := by
  unfold setPhaseProperties
  dsimp only
  split_ifs <;> rfl

/-- C8: one tick of `updateParticles` is unchanged by the stored
`flowSpeed` (same particles, same draws, same result), and particle
creation depends on `flowSpeed` only through the seeded velocity — erasing
`vx`, `vy` makes the created particles identical. -/
theorem flowSpeed_noninterference (o : Options) (fs1 fs2 : ℚ)
    (env : MathFns) (w h : ℚ) (t : Nat) (rs : Nat → TickRands)
    (ps : List Particle) (i : Nat) (cr : CreateRands) :
    updateParticles { o with flowSpeed := fs1 } env w h t rs ps =
      updateParticles { o with flowSpeed := fs2 } env w h t rs ps ∧
    { createParticle { o with flowSpeed := fs1 } w h i cr with
        vx := 0, vy := 0 } =
      { createParticle { o with flowSpeed := fs2 } w h i cr with
        vx := 0, vy := 0 } := by
  constructor
  · rfl
  · unfold createParticle
    rw [← setPhaseProperties_vxvy, ← setPhaseProperties_vxvy]

/-- C9 counterexample: explicitly passing `turbulence: 0` and
`flowSpeed: 0` yields stored options with turbulence 0 and flowSpeed 0 —
the constructor does not substitute the defaults 0.1 and 1, because the
trailing spread restores the explicit zeros; the same holds through full
construction. -/
theorem mergeOptions_explicit_zero_counterexample :
    (mergeOptions rawZero).turbulence = 0 ∧
    ¬ (mergeOptions rawZero).turbulence = 0.1 ∧
    (mergeOptions rawZero).flowSpeed = 0 ∧
    ¬ (mergeOptions rawZero).flowSpeed = 1 ∧
    ((construct (some ⟨2, 2⟩) rawZero zeroCreateDraws).toOption.map
      fun s => s.options.turbulence) = some 0 := by
  refine ⟨rfl, ?_, rfl, ?_, rfl⟩ <;> norm_num [mergeOptions, rawZero, spreadNum]

/-- C9 (amended): the `||` defaults (100, 1, 0.1, 293.15, 101325) take
effect only for keys absent from the configuration object; any explicitly
present value — including 0 — survives, because the trailing `...options`
spread overwrites the defaulted fields. -/
theorem mergeOptions_defaults_only_when_absent (o : RawOptions) :
    (o.particleCount = none → (mergeOptions o).particleCount = 100) ∧
    (∀ n, o.particleCount = some n → (mergeOptions o).particleCount = n) ∧
    (o.flowSpeed = none → (mergeOptions o).flowSpeed = 1) ∧
    (∀ v, o.flowSpeed = some v → (mergeOptions o).flowSpeed = v) ∧
    (o.turbulence = none → (mergeOptions o).turbulence = 0.1) ∧
    (∀ v, o.turbulence = some v → (mergeOptions o).turbulence = v) ∧
    (o.temperature = none → (mergeOptions o).temperature = 293.15) ∧
    (∀ v, o.temperature = some v → (mergeOptions o).temperature = v) ∧
    (o.pressure = none → (mergeOptions o).pressure = 101325) ∧
    (∀ v, o.pressure = some v → (mergeOptions o).pressure = v) := by
  refine ⟨?_, ?_, ?_, ?_, ?_, ?_, ?_, ?_, ?_, ?_⟩ <;> intros <;>
    simp_all [mergeOptions, spreadNat, spreadNum, jsOrNat, jsOrNum]

/-- Witness for the amended C9: absent keys get the defaults, explicit
zeros survive. -/
theorem mergeOptions_defaults_only_when_absent_witness :
    (mergeOptions rawNone).turbulence = 0.1 ∧
    (mergeOptions rawNone).flowSpeed = 1 ∧
    (mergeOptions rawZero).turbulence = 0 ∧
    (mergeOptions rawZero).flowSpeed = 0 :=
  ⟨(mergeOptions_defaults_only_when_absent rawNone).2.2.2.2.1 rfl,
   (mergeOptions_defaults_only_when_absent rawNone).2.2.1 rfl,
   (mergeOptions_defaults_only_when_absent rawZero).2.2.2.2.2.1 0 rfl,
   (mergeOptions_defaults_only_when_absent rawZero).2.2.2.1 0 rfl⟩

end FlowSim
